import Mathlib

/-!
Verification development for the PatientPoint IXR analytics front end
(`06_streamlit_app.py`).  The file embeds the app's core logic — the
should-visualize predicate `needs_visualization`, the chart-construction
heuristics of `create_visualization` (including the pandas dtype
classification they rely on), the agent client `query_agent`, and the
session-state conversation log — and proves or refutes the specified
properties about them.
-/

/-! ## String utilities

Python's `in` operator on strings is substring containment, and
`str.lower` lower-cases the text.  Both are modelled directly on the
underlying character lists (ASCII case folding, which covers every
keyword and question appearing in the app). -/

def toLowerCh (c : Char) : Char :=
  if 65 ≤ c.toNat ∧ c.toNat ≤ 90 then Char.ofNat (c.toNat + 32) else c

/-- Python `s.lower()`. -/
def lowerStr (s : String) : String := String.mk (s.data.map toLowerCh)

/-- `leadMatch needle hay`: `needle` is an initial segment of `hay`. -/
def leadMatch : List Char → List Char → Bool
  | [], _ => true
  | _ :: _, [] => false
  | a :: as, b :: bs => a == b && leadMatch as bs

def seqContains (hay needle : List Char) : Bool :=
  leadMatch needle hay ||
  match hay with
  | [] => false
  | _ :: t => seqContains t needle

/-- Python `needle in hay` for strings (substring containment). -/
def strContains (hay needle : String) : Bool := seqContains hay.data needle.data

/-- Python `s.startswith(p)`. -/
def strStarts (s p : String) : Bool := leadMatch p.data s.data

/-! ## Data model: rows and pandas dtype inference

A result row is an ordered mapping from column names to scalar values
(string, number or null), exactly the payload shape the agent returns.
`create_visualization` builds `pd.DataFrame(data)` from the row list;
the only DataFrame facts the code consumes are the column order and the
per-column dtype (`int64` / `float64` / `object`), so those are what the
embedding models. -/

inductive Value where
  | null
  | int (n : Int)
  | float (x : Rat)
  | str (s : String)
deriving DecidableEq

def Value.isStr : Value → Bool
  | .str _ => true
  | _ => false

def Value.isInt : Value → Bool
  | .int _ => true
  | _ => false

def Value.isFloat : Value → Bool
  | .float _ => true
  | _ => false

def Value.isNull : Value → Bool
  | .null => true
  | _ => false

/-- Numeric scalar (Python `int` or `float`). -/
def Value.isNum : Value → Bool
  | .int _ => true
  | .float _ => true
  | _ => false

abbrev Row := List (String × Value)

def rowKeys (r : Row) : List String := r.map Prod.fst

/-- Column order of `pd.DataFrame(data)`: union of the rows' keys in
order of first appearance. -/
def columns (rows : List Row) : List String :=
  rows.foldl
    (fun acc r =>
      (rowKeys r).foldl (fun acc2 k => if acc2.contains k then acc2 else acc2 ++ [k]) acc)
    []

/-- Value of column `c` in row `r`; a key that is missing from a row is
filled with null (pandas inserts NaN). -/
def lookupVal (r : Row) (c : String) : Value :=
  match r.find? (fun p => p.fst == c) with
  | some p => p.snd
  | none => .null

def colValues (rows : List Row) (c : String) : List Value :=
  rows.map (fun r => lookupVal r c)

inductive Dtype where
  | int64
  | float64
  | object
deriving DecidableEq

/-- Pandas dtype inference for one column built from a list of dicts of
scalars: any string makes the column `object`; otherwise a null
(NaN) together with at least one number gives `float64` and all-null
gives `object`; otherwise any float gives `float64`, all ints give
`int64`, and an empty column is `object`. -/
def dtypeOf (vs : List Value) : Dtype :=
  if vs.any Value.isStr then .object
  else if vs.any Value.isNull then
    (if vs.any Value.isNum then .float64 else .object)
  else if vs.any Value.isFloat then .float64
  else if vs.any Value.isInt then .int64
  else .object

def colDtype (rows : List Row) (c : String) : Dtype := dtypeOf (colValues rows c)

def isNumericDtype : Dtype → Bool
  | .int64 => true
  | .float64 => true
  | .object => false

/-- `df.select_dtypes(include=[int64, float64]).columns.tolist()`. -/
def numCols (rows : List Row) : List String :=
  (columns rows).filter (fun c => isNumericDtype (colDtype rows c))

/-- `df.select_dtypes(include=[object]).columns.tolist()`. -/
def catCols (rows : List Row) : List String :=
  (columns rows).filter (fun c => colDtype rows c == Dtype.object)

/-! ## Keyword sets (verbatim from the source) -/

def viz_keywords : List String :=
  ["impact", "correlation", "trend", "compare", "comparison",
   "increase", "decrease", "lead to", "relationship",
   "show", "visualize", "plot", "chart"]

def scatter_triggers : List String := ["correlation", "impact", "lead to", "relationship"]

def bar_triggers : List String := ["compare", "comparison", "across", "by"]

def trend_triggers : List String := ["trend", "over time", "monthly", "quarterly"]

def engagement_terms : List String := ["scroll", "click", "dwell", "engagement"]

def outcome_terms : List String := ["vaccine", "screening", "show_rate", "appointment"]

def color_terms : List String := ["specialty", "region", "level", "category"]

def ypref_terms : List String := ["vaccine", "screening", "total", "count"]

def time_terms : List String := ["month", "quarter", "year", "date", "time"]

/-- `any(keyword in query_lower for keyword in ks)` where `query_lower`
is the lower-cased question. -/
def hasAnyKeyword (q : String) (ks : List String) : Bool :=
  ks.any (fun k => strContains (lowerStr q) k)

/-- Column-name pattern match:
`any(term in col.lower() for term in terms)`. -/
def colNameMatches (terms : List String) (c : String) : Bool :=
  terms.any (fun t => strContains (lowerStr c) t)

/-! ## Agent response and the should-visualize predicate -/

/-- Parsed agent payload.  The fields are `Option` because the Python
code reads them with `response.get(...)` and a key may be absent. -/
structure Response where
  answer : Option String
  sql : Option String
  data : Option (List Row)
deriving DecidableEq

/-- `needs_visualization(query, response)`: keyword match on the
lower-cased question, conjoined with the data checks
`response.get('data') and len(...) > 0 and len(...) > 1`
(`response.get('data')` is truthy exactly when the key is present and
the list non-empty). -/
def needs_visualization (q : String) (response : Response) : Bool :=
  let has_viz_keyword := hasAnyKeyword q viz_keywords
  let truthy := match response.data with
    | some l => !l.isEmpty
    | none => false
  let has_data := truthy
      && decide (0 < (response.data.getD []).length)
      && decide (1 < (response.data.getD []).length)
  has_viz_keyword && has_data

/-! ## Chart construction (`create_visualization`) -/

inductive ChartKind where
  | scatter
  | bar
  | multiline
deriving DecidableEq

/-- Rendering-agnostic description of the Plotly figure the code builds:
the chart family, the columns bound to the axes, the optional color
column, whether point size is bound to the y column, whether the dashed
least-squares trend overlay is attached, the multi-line data series, and
whether the legend is shown. -/
structure Chart where
  kind : ChartKind
  x : String
  y : Option String := none
  color : Option String := none
  sizeByY : Bool := false
  trend : Bool := false
  series : List String := []
  showLegend : Bool := true
deriving DecidableEq

/-- Rule 1 — scatter plot for correlation/impact queries.  Fires when
the question matches a scatter trigger and both an engagement-named and
an outcome-named column exist; point size is bound to y when y is
numeric and the dashed least-squares trend overlay is attached when both
axes are numeric.  Otherwise falls through. -/
def ruleScatter (q : String) (rows : List Row) : Option Chart :=
  if hasAnyKeyword q scatter_triggers then
    let engagement_cols := (columns rows).filter (colNameMatches engagement_terms)
    let outcome_cols := (columns rows).filter (colNameMatches outcome_terms)
    match engagement_cols, outcome_cols with
    | x_col :: _, y_col :: _ =>
      let color_col := (columns rows).find? (colNameMatches color_terms)
      let yNum := isNumericDtype (colDtype rows y_col)
      let xNum := isNumericDtype (colDtype rows x_col)
      some { kind := .scatter, x := x_col, y := some y_col, color := color_col,
             sizeByY := yNum, trend := xNum && yNum }
    | _, _ => none
  else none

/-- Rule 2 — bar chart for comparisons.  Fires when the question matches
a bar trigger (note: the source checks the bare substring `by`) and the
frame has both a text column and a numeric column; the y column prefers
the first numeric column whose name matches an outcome-ish term.
Legend is suppressed. -/
def ruleBar (q : String) (rows : List Row) : Option Chart :=
  if hasAnyKeyword q bar_triggers then
    match catCols rows, numCols rows with
    | x_col :: _, y0 :: ys =>
      let y_col := (((y0 :: ys).find? (colNameMatches ypref_terms)).getD y0)
      some { kind := .bar, x := x_col, y := some y_col, color := some x_col,
             showLegend := false }
    | _, _ => none
  else none

def timeCols (rows : List Row) : List String :=
  (columns rows).filter (colNameMatches time_terms)

/-- Rule 3 — multi-line chart for trends over time.  Fires when the
question matches a trend trigger and a time-named column exists; plots
up to the first three numeric columns as series (possibly none). -/
def ruleTrend (q : String) (rows : List Row) : Option Chart :=
  if hasAnyKeyword q trend_triggers then
    match timeCols rows with
    | x_col :: _ => some { kind := .multiline, x := x_col, series := (numCols rows).take 3 }
    | [] => none
  else none

/-- Default fallback — generic bar chart from the first text and first
numeric column, else no chart. -/
def ruleDefault (rows : List Row) : Option Chart :=
  match catCols rows, numCols rows with
  | c :: _, n :: _ => some { kind := .bar, x := c, y := some n }
  | _, _ => none

/-- `create_visualization(query, data)`: the four rules in source order,
first returned figure wins. -/
def create_visualization (q : String) (rows : List Row) : Option Chart :=
  match ruleScatter q rows with
  | some fig => some fig
  | none =>
    match ruleBar q rows with
    | some fig => some fig
    | none =>
      match ruleTrend q rows with
      | some fig => some fig
      | none => ruleDefault rows

/-! ## Conversation state and the per-question step

The app keeps `st.session_state.messages`, a Python list of turn dicts.
Processing a question appends the user turn, calls the agent, and
appends an assistant turn: on success the turn carries the answer, the
sql, the data and the chart computed by
`needs_visualization`/`create_visualization` (the chart slot stays empty
when the predicate or the data check fails, or when chart construction
yields nothing); on error it carries only the `Error: ...` content.
The sidebar button resets the list to empty. -/

inductive Role where
  | user
  | assistant
deriving DecidableEq

structure Turn where
  role : Role
  content : String
  sql : Option String := none
  data : Option (List Row) := none
  chart : Option Chart := none
deriving DecidableEq

/-- Outcome of `query_agent`: the `{'status': ..., ...}` dict. -/
inductive QueryResult where
  | success (response : Response)
  | error (msg : String)
deriving DecidableEq

def userTurn (q : String) : Turn := { role := .user, content := q }

/-- The assistant turn appended for question `q` given the agent
outcome, exactly as the main loop builds it (lines 503–547 of the
source). -/
def mkAssistantTurn (q : String) (res : QueryResult) : Turn :=
  match res with
  | .success response =>
    let answer := response.answer.getD "Analysis completed."
    let sql := response.sql.getD ""
    let data := response.data.getD []
    let viz :=
      if needs_visualization q response && !data.isEmpty then create_visualization q data
      else none
    { role := .assistant, content := answer, sql := some sql, data := some data, chart := viz }
  | .error msg =>
    { role := .assistant, content := "Error: " ++ msg }

def emptyConversation : List Turn := []

/-- `st.session_state.messages.append(turn)`. -/
def appendTurn (conv : List Turn) (t : Turn) : List Turn := conv ++ [t]

/-- Reading the conversation back (iteration over the list). -/
def allTurns (conv : List Turn) : List Turn := conv

/-- `st.session_state.messages = []` (the clear-history button). -/
def clearConversation (_conv : List Turn) : List Turn := []

/-- External events driving the conversation: a question answered by the
agent with some outcome, or a press of the clear button. -/
inductive Event where
  | ask (q : String) (res : QueryResult)
  | clear

def step (conv : List Turn) (e : Event) : List Turn :=
  match e with
  | .ask q res => appendTurn (appendTurn conv (userTurn q)) (mkAssistantTurn q res)
  | .clear => clearConversation conv

/-- Conversation reached from a fresh session by a sequence of events. -/
def runEvents (events : List Event) : List Turn :=
  events.foldl step emptyConversation

/-! ## Agent client (`query_agent`)

The remote pieces — `get_active_session()`, `session.sql(...).collect()`
and `json.loads` — are modelled as an environment of fallible oracles
(`Except.error` standing for a raised exception).  `query_agent` calls
`get_session()` BEFORE its `try:` block and wraps only the query and the
parse, so the embedding returns `Except.error` exactly when session
acquisition raises, and otherwise an `Except.ok` carrying the
success/error dict. -/

/-- `session.sql(...).collect()` yields the agent payload either as a
JSON string or already structured (the `isinstance` check). -/
inductive RawResponse where
  | strVal (s : String)
  | dictVal (r : Response)

structure AgentEnv where
  sessionResult : Except String Unit
  sqlCollect : String → Except String RawResponse
  parseJson : String → Except String Response

/-- `user_query.replace("'", "''")`. -/
def escapeQuotes (q : String) : String :=
  String.mk (q.data.flatMap (fun c => if c = Char.ofNat 39 then [c, c] else [c]))

/-- Text of the SQL statement sent to the warehouse. -/
def agentQueryText (q : String) : String :=
  "SELECT PATIENT_IMPACT_AGENT(" ++ String.mk [Char.ofNat 39] ++ escapeQuotes q
    ++ String.mk [Char.ofNat 39] ++ ") AS response"

/-- `query_agent(user_query)`.  The outer `Except` is exception
propagation out of the function; the inner `QueryResult` is the dict it
returns. -/
def query_agent (env : AgentEnv) (q : String) : Except String QueryResult :=
  match env.sessionResult with
  | .error e => .error e
  | .ok _ =>
    .ok
      (match env.sqlCollect (agentQueryText q) with
       | .error e => QueryResult.error e
       | .ok (.strVal s) =>
         match env.parseJson s with
         | .error e => QueryResult.error e
         | .ok resp => QueryResult.success resp
       | .ok (.dictVal resp) => QueryResult.success resp)

/-! ## Spec-side column classifier (for the refinement comparison) -/

def digitsSeq (cs : List Char) : Bool := !cs.isEmpty && cs.all Char.isDigit

/-- Split a character sequence at every decimal point. -/
def splitOnDot : List Char → List (List Char)
  | [] => [[]]
  | c :: t =>
    if c = Char.ofNat 46 then [] :: splitOnDot t
    else
      match splitOnDot t with
      | h :: t2 => (c :: h) :: t2
      | [] => [[c]]

/-- Modelled from the spec: a candidate numeric literal — optional sign,
then digits with at most one decimal point (scientific notation is not
needed for the comparison). -/
def specNumericLiteral (s : String) : Bool :=
  let cs := s.data
  let t :=
    match cs with
    | c :: rest => if c = Char.ofNat 45 || c = Char.ofNat 43 then rest else cs
    | [] => []
  match splitOnDot t with
  | [a] => digitsSeq a
  | [a, b] =>
    (digitsSeq a && digitsSeq b) || (a.isEmpty && digitsSeq b) || (digitsSeq a && b.isEmpty)
  | _ => false

/-- Modelled from the spec: "a column is numeric if every non-null value
across all rows parses as an integer or floating-point number".  This
is the spec's classifier, to be compared with the source's
dtype-based `numCols`. -/
def specColumnNumeric (rows : List Row) (c : String) : Bool :=
  (colValues rows c).all
    (fun v =>
      match v with
      | .null => true
      | .int _ => true
      | .float _ => true
      | .str s => specNumericLiteral s)

/-! ## Concrete inputs used by the scenarios -/

def qA : String := "Did an increase in scrolling lead to more vaccines administered?"

def rowsA : List Row :=
  [[("scroll_depth", Value.int 10), ("vaccines", Value.int 2)],
   [("scroll_depth", Value.int 50), ("vaccines", Value.int 9)],
   [("scroll_depth", Value.int 80), ("vaccines", Value.int 14)]]

def respA : Response :=
  { answer := some "Yes, higher scroll depth coincides with more vaccines.",
    sql := some "SELECT 1", data := some rowsA }

def rowsNearby : List Row :=
  [[("city", Value.str "a"), ("count", Value.int 1)],
   [("city", Value.str "b"), ("count", Value.int 2)]]

def rowsNumStr : List Row := [[("a", Value.str "1")], [("a", Value.str "2")]]

def rowsTr : List Row := [[("month", Value.str "Jan")], [("month", Value.str "Feb")]]

def badEnv : AgentEnv :=
  { sessionResult := .error "no active session",
    sqlCollect := fun _ => .error "unreached",
    parseJson := fun _ => .error "unreached" }

def okEnv : AgentEnv :=
  { sessionResult := .ok (),
    sqlCollect := fun _ => .error "network unreachable",
    parseJson := fun _ => .error "unreached" }

/-! ## Helper lemmas -/

theorem needs_visualization_eq (q : String) (r : Response) :
    needs_visualization q r =
      (hasAnyKeyword q viz_keywords && decide (1 < (r.data.getD []).length)) := by
  unfold needs_visualization
  cases h : r.data with
  | none => simp [h]
  | some l =>
    cases l with
    | nil => simp [h]
    | cons a t =>
      simp [h, List.isEmpty]

/-- Any turn whose chart slot is filled was built from a success result
that passed `needs_visualization`. -/
theorem mkAssistantTurn_chart_isSome (q : String) (res : QueryResult)
    (h : (mkAssistantTurn q res).chart.isSome = true) :
    ∃ d : List Row, (mkAssistantTurn q res).data = some d ∧ 1 < d.length ∧
      hasAnyKeyword q viz_keywords = true := by
  cases res with
  | error m => simp [mkAssistantTurn] at h
  | success resp =>
    simp only [mkAssistantTurn] at h ⊢
    by_cases hv : (needs_visualization q resp && !(resp.data.getD []).isEmpty) = true
    · have hnv : needs_visualization q resp = true := by
        have := hv
        simp [Bool.and_eq_true] at this
        exact this.1
      rw [needs_visualization_eq] at hnv
      simp [Bool.and_eq_true] at hnv
      exact ⟨resp.data.getD [], rfl, hnv.2, hnv.1⟩
    · simp [hv] at h

theorem any_isNum_eq (vs : List Value) :
    vs.any Value.isNum = (vs.any Value.isInt || vs.any Value.isFloat) := by
  induction vs with
  | nil => rfl
  | cons v t ih =>
    cases v <;>
      simp [List.any_cons, Value.isNum, Value.isInt, Value.isFloat, ih]

/-- The dtype-based numeric test says: no string value and at least one
number. -/
theorem isNumericDtype_dtypeOf (vs : List Value) :
    isNumericDtype (dtypeOf vs) = (!vs.any Value.isStr && vs.any Value.isNum) := by
  unfold dtypeOf
  by_cases hs : vs.any Value.isStr = true
  · simp [hs, isNumericDtype]
  · rw [Bool.not_eq_true] at hs
    by_cases hn : vs.any Value.isNull = true
    · by_cases hm : vs.any Value.isNum = true
      · simp [hs, hn, hm, isNumericDtype]
      · rw [Bool.not_eq_true] at hm
        simp [hs, hn, hm, isNumericDtype]
    · rw [Bool.not_eq_true] at hn
      by_cases hf : vs.any Value.isFloat = true
      · have hm : vs.any Value.isNum = true := by
          rw [any_isNum_eq, hf, Bool.or_true]
        simp [hs, hn, hf, hm, isNumericDtype]
      · rw [Bool.not_eq_true] at hf
        by_cases hi : vs.any Value.isInt = true
        · have hm : vs.any Value.isNum = true := by
            rw [any_isNum_eq, hf, hi, Bool.true_or]
          simp [hs, hn, hf, hi, hm, isNumericDtype]
        · rw [Bool.not_eq_true] at hi
          have hm : vs.any Value.isNum = false := by
            rw [any_isNum_eq, hf, hi]
            rfl
          simp [hs, hn, hf, hi, hm, isNumericDtype]

/-! ## Conversation-state helper lemmas -/

def chartInvariant (l : List Turn) : Prop :=
  ∀ t ∈ l, t.chart.isSome = true →
    ∃ (q : String) (res : QueryResult) (d : List Row),
      t = mkAssistantTurn q res ∧ t.data = some d ∧ 1 < d.length ∧
        hasAnyKeyword q viz_keywords = true

theorem chartInvariant_step (l : List Turn) (e : Event) (h : chartInvariant l) :
    chartInvariant (step l e) := by
  cases e with
  | clear =>
    intro t ht
    simp [step, clearConversation] at ht
  | ask q res =>
    intro t ht hc
    simp only [step, appendTurn, List.append_assoc, List.mem_append, List.mem_singleton] at ht
    rcases ht with ht | ht | ht
    · exact h t ht hc
    · subst ht
      simp [userTurn] at hc
    · subst ht
      obtain ⟨d, hd, hlen, hkw⟩ := mkAssistantTurn_chart_isSome q res hc
      exact ⟨q, res, d, rfl, hd, hlen, hkw⟩

theorem chartInvariant_foldl (events : List Event) (l : List Turn) (h : chartInvariant l) :
    chartInvariant (events.foldl step l) := by
  induction events generalizing l with
  | nil => exact h
  | cons e es ih => exact ih _ (chartInvariant_step _ _ h)

theorem foldl_appendTurn (ts : List Turn) :
    ∀ l : List Turn, ts.foldl appendTurn l = l ++ ts := by
  induction ts with
  | nil => intro l; simp
  | cons t ts ih =>
    intro l
    rw [List.foldl_cons, ih]
    simp [appendTurn]

/-! ## Claims -/

/-- C1: `needs_visualization` returns true exactly when the lower-cased
question contains one of the fixed trigger keywords and the result data
has strictly more than one row; in particular a result with exactly one
row yields false whatever the question. -/
theorem C1_needs_visualization_characterization :
    (∀ (q : String) (r : Response),
      needs_visualization q r =
        (hasAnyKeyword q viz_keywords && decide (1 < (r.data.getD []).length)))
    ∧ (∀ (q : String) (a s : Option String) (row : Row),
      needs_visualization q { answer := a, sql := s, data := some [row] } = false) := by
  constructor
  · exact needs_visualization_eq
  · intro q a s row
    rw [needs_visualization_eq]
    simp

/-- C2 counterexample: `query_agent` calls `get_session()` before its
`try:` block, so when session acquisition fails the exception
propagates out of `query_agent` (here: the outer `Except.error`) instead
of being returned as a `{'status': 'error', ...}` dict, refuting the
claim that no input makes it raise past its boundary. -/
theorem C2_counterexample_session_raises :
    query_agent badEnv "hello" = Except.error "no active session" := rfl

/-- C2 amended: once the session handle is obtained, `query_agent`
never raises — every failure of the query or of payload parsing is
returned as the error-status dict, and otherwise the success-status dict
is returned; only a failure of `get_session()` itself escapes. -/
theorem C2_no_raise_after_session (env : AgentEnv) (q : String)
    (h : env.sessionResult = Except.ok ()) :
    ∃ v : QueryResult, query_agent env q = Except.ok v ∧
      ((∃ m : String, v = QueryResult.error m) ∨
        (∃ resp : Response, v = QueryResult.success resp)) := by
  unfold query_agent
  rw [h]
  cases hc : env.sqlCollect (agentQueryText q) with
  | error e => exact ⟨QueryResult.error e, by simp [hc], Or.inl ⟨e, rfl⟩⟩
  | ok raw =>
    cases raw with
    | strVal s =>
      cases hp : env.parseJson s with
      | error e => exact ⟨QueryResult.error e, by simp [hc, hp], Or.inl ⟨e, rfl⟩⟩
      | ok resp => exact ⟨QueryResult.success resp, by simp [hc, hp], Or.inr ⟨resp, rfl⟩⟩
    | dictVal resp => exact ⟨QueryResult.success resp, by simp [hc], Or.inr ⟨resp, rfl⟩⟩

/-- Witness for the amended C2 at a concrete environment whose session
succeeds but whose query fails. -/
theorem C2_no_raise_after_session_witness :
    ∃ v : QueryResult, query_agent okEnv "hello" = Except.ok v ∧
      ((∃ m : String, v = QueryResult.error m) ∨
        (∃ resp : Response, v = QueryResult.success resp)) :=
  C2_no_raise_after_session okEnv "hello" rfl

/-- C3 counterexample: the question "nearby" contains none of
`compare`, `comparison`, `across` or the space-delimited `" by "`, yet
the source checks the bare substring `by` (line 294), so the comparison
rule fires and builds a bar chart — refuting the claim that a question
whose only candidate match is `by` embedded in another word never
triggers the rule. -/
theorem C3_counterexample_embedded_by :
    strContains (lowerStr "nearby") "compare" = false ∧
    strContains (lowerStr "nearby") "comparison" = false ∧
    strContains (lowerStr "nearby") "across" = false ∧
    strContains (lowerStr "nearby") " by " = false ∧
    hasAnyKeyword "nearby" bar_triggers = true ∧
    ruleBar "nearby" rowsNearby =
      some { kind := .bar, x := "city", y := some "count", color := some "city",
             showLegend := false } := by
  decide

/-- C3 amended: the comparison rule's trigger is the bare substring set
{compare, comparison, across, by} over the lower-cased question — `by`
matches even inside another word — and, given the trigger, the rule
fires exactly when the frame has both a text and a numeric column. -/
theorem C3_bar_trigger_characterization :
    (∀ q : String,
      hasAnyKeyword q bar_triggers =
        (strContains (lowerStr q) "compare" || strContains (lowerStr q) "comparison" ||
          strContains (lowerStr q) "across" || strContains (lowerStr q) "by"))
    ∧ (∀ (q : String) (rows : List Row),
      (ruleBar q rows).isSome =
        (hasAnyKeyword q bar_triggers && !(catCols rows).isEmpty &&
          !(numCols rows).isEmpty)) := by
  constructor
  · intro q
    simp [hasAnyKeyword, bar_triggers, Bool.or_assoc]
  · intro q rows
    unfold ruleBar
    cases htrig : hasAnyKeyword q bar_triggers with
    | false => simp
    | true =>
      cases hc : catCols rows with
      | nil => simp [hc]
      | cons c cs =>
        cases hn : numCols rows with
        | nil => simp [hn]
        | cons n ns => simp [hn]

/-- C4 counterexample: a column whose values are the numeric strings
"1" and "2" satisfies the spec's parse-based numeric test, but the code
classifies it by pandas dtype — the column is `object`, lands in the
text columns and not in the numeric columns used for axis selection,
refuting the claimed classification rule. -/
theorem C4_counterexample_numeric_strings :
    specColumnNumeric rowsNumStr "a" = true ∧
    numCols rowsNumStr = [] ∧
    catCols rowsNumStr = ["a"] := by
  decide

/-- C4 amended: a column is classified numeric exactly when none of its
values is a string and at least one value is a number (pandas dtype
`int64`/`float64`); a column containing any string value — numeric
strings included — is text. -/
theorem C4_numeric_classification :
    ∀ (rows : List Row) (c : String),
      c ∈ numCols rows ↔
        (c ∈ columns rows ∧ (∀ v ∈ colValues rows c, v.isStr = false) ∧
          ∃ v ∈ colValues rows c, v.isNum = true) := by
  intro rows c
  unfold numCols
  rw [List.mem_filter]
  simp only [colDtype, isNumericDtype_dtypeOf, Bool.and_eq_true, Bool.not_eq_true',
    List.any_eq_true, List.any_eq_false, Bool.not_eq_true]

/-- C5 (Scenario A): for the scrolling/vaccines question and the three
concrete rows, `needs_visualization` is true and `create_visualization`
yields a scatter chart with x bound to `scroll_depth`, y bound to
`vaccines`, point size bound to y, and the dashed least-squares trend
overlay attached (both axes numeric). -/
theorem C5_scenarioA :
    needs_visualization qA respA = true ∧
    create_visualization qA rowsA =
      some { kind := .scatter, x := "scroll_depth", y := some "vaccines",
             color := none, sizeByY := true, trend := true, series := [],
             showLegend := true } := by
  decide

/-- C6: in every conversation reachable from a fresh session, a turn
carrying a chart is an assistant turn built from a question whose
lower-cased text matched a visualization keyword and whose attached data
has at least two rows; turns built from error results, and turns for
questions without a trigger keyword, never carry a chart. -/
theorem C6_chart_invariant :
    (∀ (events : List Event) (t : Turn), t ∈ runEvents events →
      t.chart.isSome = true →
      ∃ (q : String) (res : QueryResult) (d : List Row),
        t = mkAssistantTurn q res ∧ t.data = some d ∧ 1 < d.length ∧
          hasAnyKeyword q viz_keywords = true)
    ∧ (∀ q m : String, (mkAssistantTurn q (QueryResult.error m)).chart = none)
    ∧ (∀ (q : String) (res : QueryResult), hasAnyKeyword q viz_keywords = false →
        (mkAssistantTurn q res).chart = none) := by
  refine ⟨?_, ?_, ?_⟩
  · intro events t ht hc
    have hinv : chartInvariant (runEvents events) := by
      unfold runEvents emptyConversation
      apply chartInvariant_foldl
      intro t ht
      simp at ht
    exact hinv t ht hc
  · intro q m
    rfl
  · intro q res hkw
    cases res with
    | error m => rfl
    | success resp =>
      simp only [mkAssistantTurn]
      have : needs_visualization q resp = false := by
        rw [needs_visualization_eq, hkw, Bool.false_and]
      simp [this]

/-- Witness for C6 at the Scenario A event: the resulting assistant
turn does carry a chart, and the invariant yields the keyword and the
row count. -/
theorem C6_chart_invariant_witness :
    ∃ (q : String) (res : QueryResult) (d : List Row),
      mkAssistantTurn qA (QueryResult.success respA) = mkAssistantTurn q res ∧
        (mkAssistantTurn qA (QueryResult.success respA)).data = some d ∧ 1 < d.length ∧
        hasAnyKeyword q viz_keywords = true :=
  C6_chart_invariant.1 [Event.ask qA (QueryResult.success respA)]
    (mkAssistantTurn qA (QueryResult.success respA)) (by decide) (by decide)

/-- C7: appending any sequence of turns to a fresh conversation and
reading it back yields exactly that sequence, same length, same order,
same content. -/
theorem C7_roundtrip :
    ∀ ts : List Turn,
      allTurns (ts.foldl appendTurn emptyConversation) = ts ∧
      (ts.foldl appendTurn emptyConversation).length = ts.length := by
  intro ts
  rw [foldl_appendTurn]
  constructor
  · simp [allTurns, emptyConversation]
  · simp [emptyConversation]

/-- C8: clearing any conversation leaves it empty on read-back, and
clearing is idempotent. -/
theorem C8_clear_idempotent :
    ∀ conv : List Turn,
      allTurns (clearConversation conv) = [] ∧
      clearConversation (clearConversation conv) = clearConversation conv :=
  fun _ => ⟨rfl, rfl⟩

/-- C9: the assistant turn built from an error-status agent result has
content starting with "Error:" (specifically "Error: " followed by the
message) and carries no chart, sql or data fields. -/
theorem C9_error_turn_shape :
    ∀ q m : String,
      strStarts (mkAssistantTurn q (QueryResult.error m)).content "Error:" = true ∧
      (mkAssistantTurn q (QueryResult.error m)).content = "Error: " ++ m ∧
      (mkAssistantTurn q (QueryResult.error m)).chart = none ∧
      (mkAssistantTurn q (QueryResult.error m)).sql = none ∧
      (mkAssistantTurn q (QueryResult.error m)).data = none :=
  fun _ _ => ⟨rfl, rfl, rfl, rfl, rfl⟩

/-- C10: when the question matches a trend trigger, the rows have a
time-like column and neither the correlation rule nor the comparison
rule produced a figure, `create_visualization` always returns the
multi-line chart on the first time-like column — plotting the first
(up to three) numeric columns, hence with no data series at all when
the row set has no numeric column; it never reaches the default rule. -/
theorem C10_trend_rule_no_fallthrough (q : String) (rows : List Row)
    (htrig : hasAnyKeyword q trend_triggers = true)
    (htime : timeCols rows ≠ [])
    (h1 : ruleScatter q rows = none)
    (h2 : ruleBar q rows = none) :
    ∃ c : Chart, create_visualization q rows = some c ∧
      c.kind = ChartKind.multiline ∧ c.x = (timeCols rows).headD "" ∧
      c.series = (numCols rows).take 3 ∧
      (numCols rows = [] → c.series = []) := by
  unfold create_visualization
  rw [h1, h2]
  unfold ruleTrend
  rw [htrig]
  cases hc : timeCols rows with
  | nil => exact absurd hc htime
  | cons x xs =>
    refine ⟨{ kind := ChartKind.multiline, x := x, series := (numCols rows).take 3 },
      by simp, rfl, rfl, rfl, ?_⟩
    intro hnum
    simp [hnum]

/-- Witness for C10: question "trend" with two rows of a lone text
column `month` — no numeric columns at all — still yields the
multi-line chart, with an empty series list. -/
theorem C10_trend_rule_no_fallthrough_witness :
    ∃ c : Chart, create_visualization "trend" rowsTr = some c ∧
      c.kind = ChartKind.multiline ∧ c.x = (timeCols rowsTr).headD "" ∧
      c.series = (numCols rowsTr).take 3 ∧
      (numCols rowsTr = [] → c.series = []) :=
  C10_trend_rule_no_fallthrough "trend" rowsTr (by decide) (by decide) (by decide) (by decide)
